import Mathlib

/-!
# Verification of `psychopy/visual/stim3d.py`

A shallow embedding of the 3D stimulus module: rigid-body poses with cached
model matrices, Phong materials and light sources with device-space color
caches, the module-level shader variant table, and the draw orchestration of
`BaseRigidBodyStim`.

Numeric values (Python/NumPy `float32`) are modelled as exact rationals `ℚ`;
the claims settled here do not hinge on rounding.  NumPy arrays whose length
matters (for Python truthiness) are modelled as `List ℚ`; fixed-size vectors
are small structures.  Fallible Python code returns `Except PyErr`.
-/

set_option autoImplicit false

namespace Stim3d

/-- Kinds of Python exceptions raised by the embedded code. -/
inductive PyErr where
  /-- `ValueError`, e.g. from `bool()` of a multi-element NumPy array or from
  rejected configuration values. -/
  | valueError
  /-- `KeyError` from a failed dictionary lookup. -/
  | keyError
  deriving DecidableEq, Repr

/-- Python truthiness of a NumPy array (`bool(arr)`): a single-element array
yields the truth of its element, an empty array is falsy, and an array with
more than one element raises `ValueError` ("the truth value of an array with
more than one element is ambiguous"). -/
def npTruthy (xs : List ℚ) : Except PyErr Bool :=
  match xs with
  | [] => .ok false
  | [x] => .ok (decide (x ≠ 0))
  | _ :: _ :: _ => .error .valueError

/-- A 3-vector of rationals (NumPy length-3 `float32` array). -/
structure Vec3 where
  x : ℚ
  y : ℚ
  z : ℚ
  deriving DecidableEq, Repr

/-- A 4-vector of rationals (NumPy length-4 `float32` array), used for the
device-space RGBA color caches. -/
structure Vec4 where
  r : ℚ
  g : ℚ
  b : ℚ
  a : ℚ
  deriving DecidableEq, Repr

/-- A quaternion `(x, y, z, w)` with `x`, `y`, `z` imaginary and `w` real,
matching the layout used throughout `stim3d.py`. -/
structure Quat where
  x : ℚ
  y : ℚ
  z : ℚ
  w : ℚ
  deriving DecidableEq, Repr

/-- Component-wise addition of position vectors (`self._pos + other.pos`). -/
def Vec3.add (u v : Vec3) : Vec3 :=
  ⟨u.x + v.x, u.y + v.y, u.z + v.z⟩

/-- Component-wise negation (`-self._pos`). -/
def Vec3.neg (v : Vec3) : Vec3 :=
  ⟨-v.x, -v.y, -v.z⟩

/-- The zero vector, the default position `(0., 0., 0.)`. -/
def vec3Zero : Vec3 := ⟨0, 0, 0⟩

/-- The identity quaternion, the default orientation `(0., 0., 0., 1.)`. -/
def quatIdentity : Quat := ⟨0, 0, 0, 1⟩

/-- Squared norm `x² + y² + z² + w²` of a quaternion. -/
def quatNormSq (q : Quat) : ℚ :=
  q.x * q.x + q.y * q.y + q.z * q.z + q.w * q.w

/-- Modelled from the spec: `psychopy.tools.mathtools.multQuat` (not under
`src/`; §4.1 calls it `quatMultiply`).  Hamilton product of two quaternions in
`(x, y, z, w)` layout: vector part `w0·v1 + w1·v0 + v0 × v1`, scalar part
`w0·w1 − v0·v1`. -/
def multQuat (q0 q1 : Quat) : Quat :=
  ⟨q0.w * q1.x + q0.x * q1.w + q0.y * q1.z - q0.z * q1.y,
   q0.w * q1.y - q0.x * q1.z + q0.y * q1.w + q0.z * q1.x,
   q0.w * q1.z + q0.x * q1.y - q0.y * q1.x + q0.z * q1.w,
   q0.w * q1.w - q0.x * q1.x - q0.y * q1.y - q0.z * q1.z⟩

/-- Modelled from the spec: `psychopy.tools.mathtools.invertQuat` (not under
`src/`; §4.1 calls it `quatInverse`).  Quaternion inverse: the conjugate
scaled by the reciprocal of the squared norm. -/
def invertQuat (q : Quat) : Quat :=
  ⟨-q.x / quatNormSq q, -q.y / quatNormSq q, -q.z / quatNormSq q,
   q.w / quatNormSq q⟩

/-- Modelled from the spec: `psychopy.tools.mathtools.posOriToMatrix` (not
under `src/`; §4.1: "recomputes from `position`+`orientation` via rigid-body
composition (rotation from quaternion, translation appended)").  Returns the
row-major flattening of the 4×4 matrix whose upper-left 3×3 block is the
rotation matrix of the quaternion and whose last column is the translation. -/
def posOriToMatrix (p : Vec3) (q : Quat) : List ℚ :=
  [1 - 2 * (q.y * q.y + q.z * q.z), 2 * (q.x * q.y - q.z * q.w),
     2 * (q.x * q.z + q.y * q.w), p.x,
   2 * (q.x * q.y + q.z * q.w), 1 - 2 * (q.x * q.x + q.z * q.z),
     2 * (q.y * q.z - q.x * q.w), p.y,
   2 * (q.x * q.z - q.y * q.w), 2 * (q.y * q.z + q.x * q.w),
     1 - 2 * (q.x * q.x + q.y * q.y), p.z,
   0, 0, 0, 1]

/-- Modelled from the spec: `psychopy.tools.mathtools.invertMatrix` applied to
a rigid-body matrix (not under `src/`; §4.1: "rotation-transpose + negated,
rotated translation").  Input and output are row-major flattenings of 4×4
matrices. -/
def invertRigidMatrix (m : List ℚ) : List ℚ :=
  let e : Nat → ℚ := fun i => m.getD i 0
  let tx : ℚ := -(e 0 * e 3 + e 4 * e 7 + e 8 * e 11)
  let ty : ℚ := -(e 1 * e 3 + e 5 * e 7 + e 9 * e 11)
  let tz : ℚ := -(e 2 * e 3 + e 6 * e 7 + e 10 * e 11)
  [e 0, e 4, e 8, tx,
   e 1, e 5, e 9, ty,
   e 2, e 6, e 10, tz,
   0, 0, 0, 1]

/-- State of a `RigidBodyPose` object: position, orientation, the two matrix
caches, and the two dirty flags.  `invModelMatrix` is a flat list because its
initial value in `__init__` is the length-4 array `np.zeros(4)`, not a 4×4
matrix — its length is observable through Python truthiness. -/
structure RigidBodyPose where
  pos : Vec3
  ori : Quat
  modelMatrix : List ℚ
  invModelMatrix : List ℚ
  matrixNeedsUpdate : Bool
  invMatrixNeedsUpdate : Bool
  deriving DecidableEq, Repr

/-- `RigidBodyPose.__init__`: stores `pos` and `ori`, eagerly computes the
model matrix via `mt.posOriToMatrix`, initializes the inverse cache to
`np.zeros(4)` (a length-4 array), and clears both dirty flags. -/
def mkRigidBodyPose (p : Vec3) (q : Quat) : RigidBodyPose :=
  { pos := p
    ori := q
    modelMatrix := posOriToMatrix p q
    invModelMatrix := [0, 0, 0, 0]
    matrixNeedsUpdate := false
    invMatrixNeedsUpdate := false }

/-- The `pos` property setter: stores the new position and sets both dirty
flags (`self._matrixNeedsUpdate = self._invMatrixNeedsUpdate = True`). -/
def RigidBodyPose.setPos (s : RigidBodyPose) (v : Vec3) : RigidBodyPose :=
  { s with pos := v, matrixNeedsUpdate := true, invMatrixNeedsUpdate := true }

/-- The `ori` property setter: stores the new orientation and sets both dirty
flags. -/
def RigidBodyPose.setOri (s : RigidBodyPose) (q : Quat) : RigidBodyPose :=
  { s with ori := q, matrixNeedsUpdate := true, invMatrixNeedsUpdate := true }

/-- `RigidBodyPose.__mul__`: a new pose with position `self._pos + other.pos`
and orientation `multQuat(self._ori, other.ori)`, built through the
constructor. -/
def RigidBodyPose.mul (s other : RigidBodyPose) : RigidBodyPose :=
  mkRigidBodyPose (s.pos.add other.pos) (multQuat s.ori other.ori)

/-- `RigidBodyPose.__invert__` (the `~` operator): a new pose with position
`-self._pos` and orientation `invertQuat(self._ori)`. -/
def RigidBodyPose.invert (s : RigidBodyPose) : RigidBodyPose :=
  mkRigidBodyPose s.pos.neg (invertQuat s.ori)

/-- `RigidBodyPose.getModelMatrix(inverse, out=None)`: recomputes the forward
matrix if its dirty flag is set, then, when `inverse` is requested, recomputes
the inverse cache if its own dirty flag is set.  Returns the requested matrix,
the updated state, and the number of matrix recomputations performed (the
instrumentation counter of spec §8). -/
def RigidBodyPose.getModelMatrix (s0 : RigidBodyPose) (inverse : Bool) :
    List ℚ × RigidBodyPose × Nat :=
  let fwd : RigidBodyPose × Nat :=
    if s0.matrixNeedsUpdate then
      ({ s0 with modelMatrix := posOriToMatrix s0.pos s0.ori
                 matrixNeedsUpdate := false }, 1)
    else (s0, 0)
  let s1 := fwd.1
  if inverse then
    let inv : RigidBodyPose × Nat :=
      if s1.invMatrixNeedsUpdate then
        ({ s1 with invModelMatrix := invertRigidMatrix s1.modelMatrix
                   invMatrixNeedsUpdate := false }, 1)
      else (s1, 0)
    (inv.1.invModelMatrix, inv.1, fwd.2 + inv.2)
  else
    (s1.modelMatrix, s1, fwd.2)

/-- The read-only `modelMatrix` property: returns the cache directly when the
dirty flag is clear, otherwise delegates to `getModelMatrix()`. -/
def RigidBodyPose.modelMatrixProp (s : RigidBodyPose) :
    List ℚ × RigidBodyPose :=
  if !s.matrixNeedsUpdate then (s.modelMatrix, s)
  else
    let r := s.getModelMatrix false
    (r.1, r.2.1)

/-- The read-only `inverseModelMatrix` property.  The source tests
`if not self._invModelMatrix:` — Python truthiness of the cached NumPy array
itself, not the `_invMatrixNeedsUpdate` flag — and returns the raw cache when
that test is true, else delegates to `getModelMatrix(inverse=True)`. -/
def RigidBodyPose.inverseModelMatrixProp (s : RigidBodyPose) :
    Except PyErr (List ℚ × RigidBodyPose) := do
  let b ← npTruthy s.invModelMatrix
  if !b then
    pure (s.invModelMatrix, s)
  else
    let r := s.getModelMatrix true
    pure (r.1, r.2.1)

/-- `np.isclose` on scalars with NumPy's default tolerances:
`|a − b| ≤ atol + rtol·|b|` with `atol = 10⁻⁸` and `rtol = 10⁻⁵`. -/
def npIsclose (a b : ℚ) : Bool :=
  decide (|a - b| ≤ 1 / 100000000 + |b| / 100000)

/-- Python truthiness of a NumPy boolean array, as forced by `and`: a
single-element array yields its element, an empty array is falsy, and an
array with more than one element raises `ValueError`. -/
def npBoolTruthy (bs : List Bool) : Except PyErr Bool :=
  match bs with
  | [] => .ok false
  | [b] => .ok b
  | _ :: _ :: _ => .error .valueError

/-- `RigidBodyPose.isEqual`: evaluates
`np.isclose(self._pos, other.pos) and np.isclose(self._ori, other.ori)`.
Each `np.isclose` call returns an element-wise boolean array; the Python
`and` first forces `bool()` of the left array, and, if that is truthy, the
expression evaluates to the right array, which the method's boolean contract
then forces as well. -/
def RigidBodyPose.isEqual (s other : RigidBodyPose) : Except PyErr Bool := do
  let posClose : List Bool :=
    [npIsclose s.pos.x other.pos.x, npIsclose s.pos.y other.pos.y,
     npIsclose s.pos.z other.pos.z]
  let oriClose : List Bool :=
    [npIsclose s.ori.x other.ori.x, npIsclose s.ori.y other.ori.y,
     npIsclose s.ori.z other.ori.z, npIsclose s.ori.w other.ori.w]
  let left ← npBoolTruthy posClose
  if left then
    npBoolTruthy oriClose
  else
    pure false

/-! ## LightSource -/

/-- State of a `LightSource` object.  `_pos` is a length-4 NumPy array, split
here into its `xyz` part and its `w` homogeneous component; `lightType` stores
the `_lightType` string; the `...RGB` fields are the device-space RGBA caches
updated by the color setters. -/
structure LightSource where
  posXYZ : Vec3
  posW : ℚ
  lightType : String
  diffuseColor : Vec3
  specularColor : Vec3
  ambientColor : Vec3
  diffuseRGB : Vec4
  specularRGB : Vec4
  ambientRGB : Vec4
  kAttenuation : Vec3
  deriving DecidableEq, Repr

namespace LightSource

/-- The `diffuseRGB` property setter: rebuilds the cache as
`(value + 1) / 2.0` in the RGB components with the alpha component hardcoded
to `1.0`. -/
def setDiffuseRGB (L : LightSource) (v : Vec3) : LightSource :=
  { L with diffuseRGB := ⟨(v.x + 1) / 2, (v.y + 1) / 2, (v.z + 1) / 2, 1⟩ }

/-- The `specularRGB` property setter: `(value + 1) / 2.0` with alpha `1.0`. -/
def setSpecularRGB (L : LightSource) (v : Vec3) : LightSource :=
  { L with specularRGB := ⟨(v.x + 1) / 2, (v.y + 1) / 2, (v.z + 1) / 2, 1⟩ }

/-- The `ambientRGB` property setter.  The source computes
`(value * + 1) / 2.0`, i.e. `value` times unary-plus one, which is
`value / 2.0` — unlike the sibling diffuse and specular setters which compute
`(value + 1) / 2.0`.  Alpha is hardcoded to `1.0`. -/
def setAmbientRGB (L : LightSource) (v : Vec3) : LightSource :=
  { L with ambientRGB := ⟨v.x * 1 / 2, v.y * 1 / 2, v.z * 1 / 2, 1⟩ }

/-- The `diffuseColor` property setter.  Modelled from the spec: `setColor`
delegates color-space conversion to an external collaborator (§6) which, for
the default `rgb` space used here, returns the input triple unchanged and
assigns it through the `diffuseRGB` setter. -/
def setDiffuseColor (L : LightSource) (v : Vec3) : LightSource :=
  setDiffuseRGB { L with diffuseColor := v } v

/-- The `specularColor` property setter; see `setDiffuseColor`. -/
def setSpecularColor (L : LightSource) (v : Vec3) : LightSource :=
  setSpecularRGB { L with specularColor := v } v

/-- The `ambientColor` property setter; see `setDiffuseColor`. -/
def setAmbientColor (L : LightSource) (v : Vec3) : LightSource :=
  setAmbientRGB { L with ambientColor := v } v

/-- The `pos` property setter: zeroes the homogeneous array, writes the xyz
components, and sets `w = 1.0` only when the stored `_lightType` equals
`'point'` (any other stored value leaves `w = 0`). -/
def setPos (L : LightSource) (v : Vec3) : LightSource :=
  { L with posXYZ := v, posW := if L.lightType = "point" then 1 else 0 }

/-- The `lightType` property setter: stores the value, then forces `w = 1.0`
for `'point'`, `w = 0.0` for `'directional'`, and raises `ValueError` for
anything else. -/
def setLightType (L : LightSource) (value : String) :
    Except PyErr LightSource :=
  let L1 := { L with lightType := value }
  if value = "point" then .ok { L1 with posW := 1 }
  else if value = "directional" then .ok { L1 with posW := 0 }
  else .error .valueError

end LightSource

/-- `LightSource.__init__`: zero-initializes the internal arrays, runs the
three color setters, then stores `_lightType` directly (without going through
the `lightType` property setter) and runs the `pos` setter, and finally stores
the attenuation factors.  No validation of `lightType` happens on this path. -/
def mkLightSource (pos : Vec3) (diffuseColor specularColor ambientColor : Vec3)
    (lightType : String) (kAttenuation : Vec3) : LightSource :=
  let L0 : LightSource :=
    { posXYZ := vec3Zero, posW := 0, lightType := ""
      diffuseColor := vec3Zero, specularColor := vec3Zero
      ambientColor := vec3Zero
      diffuseRGB := ⟨0, 0, 0, 1⟩, specularRGB := ⟨0, 0, 0, 1⟩
      ambientRGB := ⟨0, 0, 0, 1⟩
      kAttenuation := ⟨1, 0, 0⟩ }
  let L1 := L0.setDiffuseColor diffuseColor
  let L2 := L1.setSpecularColor specularColor
  let L3 := L2.setAmbientColor ambientColor
  let L4 := { L3 with lightType := lightType }
  let L5 := L4.setPos pos
  { L5 with kAttenuation := kAttenuation }

/-! ## PhongMaterial -/

/-- The face-culling target of a material, the decoded form of the `face`
constructor argument (`GL_FRONT`, `GL_BACK`, `GL_FRONT_AND_BACK`). -/
inductive GLFace where
  | front
  | back
  | frontAndBack
  deriving DecidableEq, Repr

/-- The `face` decoding performed by `PhongMaterial.__init__`: `'front'`,
`'back'` and `'both'` map to the corresponding GL enum; any other string
raises `ValueError`. -/
def parseFace (face : String) : Except PyErr GLFace :=
  if face = "front" then .ok .front
  else if face = "back" then .ok .back
  else if face = "both" then .ok .frontAndBack
  else .error .valueError

/-- State of a `PhongMaterial` object: four source colors, their device-space
RGBA caches, shininess, opacity, contrast, the decoded face, the optional
diffuse texture handle, and the shading flags. -/
structure PhongMaterial where
  diffuseColor : Vec3
  specularColor : Vec3
  ambientColor : Vec3
  emissionColor : Vec3
  diffuseRGB : Vec4
  specularRGB : Vec4
  ambientRGB : Vec4
  emissionRGB : Vec4
  shininess : ℚ
  opacity : ℚ
  contrast : ℚ
  face : GLFace
  diffuseTexture : Option Nat
  useTextures : Bool
  useShaders : Bool
  deriving DecidableEq, Repr

namespace PhongMaterial

/-- The `diffuseRGB` property setter: rebuilds the cache as
`(value * self.contrast + 1) / 2.0` with alpha `self.opacity`, reading
`contrast` and `opacity` at call time. -/
def setDiffuseRGB (m : PhongMaterial) (v : Vec3) : PhongMaterial :=
  { m with diffuseRGB :=
      ⟨(v.x * m.contrast + 1) / 2, (v.y * m.contrast + 1) / 2,
       (v.z * m.contrast + 1) / 2, m.opacity⟩ }

/-- The `specularRGB` property setter; same formula as `setDiffuseRGB`. -/
def setSpecularRGB (m : PhongMaterial) (v : Vec3) : PhongMaterial :=
  { m with specularRGB :=
      ⟨(v.x * m.contrast + 1) / 2, (v.y * m.contrast + 1) / 2,
       (v.z * m.contrast + 1) / 2, m.opacity⟩ }

/-- The `ambientRGB` property setter; same formula as `setDiffuseRGB`. -/
def setAmbientRGB (m : PhongMaterial) (v : Vec3) : PhongMaterial :=
  { m with ambientRGB :=
      ⟨(v.x * m.contrast + 1) / 2, (v.y * m.contrast + 1) / 2,
       (v.z * m.contrast + 1) / 2, m.opacity⟩ }

/-- The `emissionRGB` property setter; same formula as `setDiffuseRGB`. -/
def setEmissionRGB (m : PhongMaterial) (v : Vec3) : PhongMaterial :=
  { m with emissionRGB :=
      ⟨(v.x * m.contrast + 1) / 2, (v.y * m.contrast + 1) / 2,
       (v.z * m.contrast + 1) / 2, m.opacity⟩ }

/-- The `diffuseColor` property setter.  Modelled from the spec: `setColor`
delegates color-space conversion to an external collaborator (§6) which, for
the default `rgb` space used here, returns the input triple unchanged and
assigns it through the `diffuseRGB` setter. -/
def setDiffuseColor (m : PhongMaterial) (v : Vec3) : PhongMaterial :=
  setDiffuseRGB { m with diffuseColor := v } v

/-- The `specularColor` property setter; see `setDiffuseColor`. -/
def setSpecularColor (m : PhongMaterial) (v : Vec3) : PhongMaterial :=
  setSpecularRGB { m with specularColor := v } v

/-- The `ambientColor` property setter; see `setDiffuseColor`. -/
def setAmbientColor (m : PhongMaterial) (v : Vec3) : PhongMaterial :=
  setAmbientRGB { m with ambientColor := v } v

/-- The `emissionColor` property setter; see `setDiffuseColor`. -/
def setEmissionColor (m : PhongMaterial) (v : Vec3) : PhongMaterial :=
  setEmissionRGB { m with emissionColor := v } v

/-- Reassigning the plain `opacity` attribute.  `PhongMaterial` defines no
property for it, so the assignment stores the value and triggers nothing. -/
def setOpacity (m : PhongMaterial) (v : ℚ) : PhongMaterial :=
  { m with opacity := v }

/-- Reassigning the plain `contrast` attribute.  `PhongMaterial` defines no
property for it, so the assignment stores the value and triggers nothing. -/
def setContrast (m : PhongMaterial) (v : ℚ) : PhongMaterial :=
  { m with contrast := v }

end PhongMaterial

/-- `PhongMaterial.__init__` after the `face` string has been decoded:
zero-initializes the color arrays, stores shininess, opacity and contrast,
then runs the four color setters in order, and finally stores the texture
handle and shading flags. -/
def mkPhongMaterialCore
    (diffuseColor specularColor ambientColor emissionColor : Vec3)
    (shininess opacity contrast : ℚ) (face : GLFace)
    (diffuseTexture : Option Nat) (useShaders : Bool) : PhongMaterial :=
  let m0 : PhongMaterial :=
    { diffuseColor := vec3Zero, specularColor := vec3Zero
      ambientColor := vec3Zero, emissionColor := vec3Zero
      diffuseRGB := ⟨0, 0, 0, 1⟩, specularRGB := ⟨0, 0, 0, 1⟩
      ambientRGB := ⟨0, 0, 0, 1⟩, emissionRGB := ⟨0, 0, 0, 1⟩
      shininess := shininess, opacity := opacity, contrast := contrast
      face := face, diffuseTexture := diffuseTexture
      useTextures := false, useShaders := useShaders }
  let m1 := m0.setDiffuseColor diffuseColor
  let m2 := m1.setSpecularColor specularColor
  let m3 := m2.setAmbientColor ambientColor
  let m4 := m3.setEmissionColor emissionColor
  m4

/-- `PhongMaterial.__init__` including the `face` validation, which raises
`ValueError` for any string other than `'front'`, `'back'` or `'both'`. -/
def mkPhongMaterial
    (diffuseColor specularColor ambientColor emissionColor : Vec3)
    (shininess opacity contrast : ℚ) (face : String)
    (diffuseTexture : Option Nat) (useShaders : Bool) :
    Except PyErr PhongMaterial := do
  let f ← parseFace face
  pure (mkPhongMaterialCore diffuseColor specularColor ambientColor
    emissionColor shininess opacity contrast f diffuseTexture useShaders)

/-! ## Shader variant table -/

/-- `MAX_LIGHTS = 8`. -/
def MAX_LIGHTS : Nat := 8

/-- A key of the module-level `_material_shaders_` dictionary: a Python tuple
whose first element is an integer and whose remaining elements are booleans.
The populated keys are the 2-tuples `(i, hasDiffuse)`; the flat-color draw
path builds the 3-tuple `(nLights, False, False)`. -/
abbrev ShaderKey := Nat × List Bool

/-- The module-level `shaderFlags` list: for each `i` in
`range(1, MAX_LIGHTS + 1)` and each `j` in `product((True, False), repeat=1)`
the tuple `(i, *j)`. -/
def shaderFlags : List ShaderKey :=
  (List.range' 1 MAX_LIGHTS).flatMap fun i => [(i, [true]), (i, [false])]

/-- The module-level shader build loop populating `_material_shaders_`.
Modelled from the spec: `gt.createProgramObjectARB` (not under `src/`) is an
external allocator returning a fresh, distinct program handle per call —
modelled by numbering the handles in creation order.  Every flag in
`shaderFlags` is compiled, linked and stored under that flag. -/
def materialShaders : List (ShaderKey × Nat) :=
  shaderFlags.zip (List.range shaderFlags.length)

/-- Dictionary lookup `_material_shaders_[key]`, as an `Option`. -/
def lookupShader (key : ShaderKey) : Option Nat :=
  (materialShaders.find? fun e => e.1 = key).map Prod.snd

/-! ## BaseRigidBodyStim draw orchestration -/

/-- The observable effects emitted by `BaseRigidBodyStim.draw`: GL calls,
`gltools` helpers, and the `win.draw3d` assignments. -/
inductive GLCmd where
  | setDraw3d (enabled : Bool)
  | pushMatrix
  | loadTransposeMatrix (m : List ℚ)
  | popMatrix
  | useMaterialCmd
  | clearMaterialCmd
  | useProgram (handle : Nat)
  | drawVAOCmd (vao : Nat)
  | materialfvDiffuse (color : Vec4)
  | materialfvAmbient (color : Vec4)
  | enableColorMaterial
  | disableTexture2d
  | colorMaterialAmbientAndDiffuse
  | color4f (color : Vec4)
  | disableColorMaterial
  deriving DecidableEq, Repr

/-- State of a `BaseRigidBodyStim`: the optional VAO handle (`None` until
geometry is attached — the `Unbound` state), the owned pose, the optional
material, the shading flag, and the stimulus color/contrast/opacity used by
the flat-color fallback. -/
structure BaseRigidBodyStim where
  vao : Option Nat
  thePose : RigidBodyPose
  material : Option PhongMaterial
  useShaders : Bool
  rgb : Vec3
  contrast : ℚ
  opacity : ℚ
  deriving DecidableEq, Repr

/-- Modelled from the spec: `ColorMixin._getDesiredRGB` (not under `src/`) —
the flat-color path "using the stimulus's own color/opacity" (§4.6); the
collaborator maps the stimulus color and contrast to the rendered RGB
triple. -/
def getDesiredRGB (rgb : Vec3) (contrast : ℚ) : Vec3 :=
  ⟨(rgb.x * contrast + 1) / 2, (rgb.y * contrast + 1) / 2,
   (rgb.z * contrast + 1) / 2⟩

/-- `BaseRigidBodyStim.draw(win)`: a no-op returning immediately when
`self._vao is None`; otherwise sets `win.draw3d`, pushes and loads the pose's
model matrix (through the `modelMatrix` property, which may recompute the
cache), dispatches on material presence and `_useShaders` — looking up
`_material_shaders_[(nLights, material._useTextures)]` on the material path
and `_material_shaders_[(nLights, False, False)]` on the flat-color path,
raising `KeyError` when the key is absent — then pops the matrix and clears
`win.draw3d`.  `nLights` is `len(self.win.lights)`.  Returns the effect trace
and the stimulus with its (possibly recomputed) pose. -/
def BaseRigidBodyStim.draw (s : BaseRigidBodyStim) (nLights : Nat) :
    Except PyErr (List GLCmd × BaseRigidBodyStim) :=
  match s.vao with
  | none => .ok ([], s)
  | some vao =>
    let mm := s.thePose.modelMatrixProp
    let s1 := { s with thePose := mm.2 }
    let pre : List GLCmd :=
      [.setDraw3d true, .pushMatrix, .loadTransposeMatrix mm.1]
    let post : List GLCmd := [.popMatrix, .setDraw3d false]
    match s.material with
    | some mat =>
      if s.useShaders then
        match lookupShader (nLights, [mat.useTextures]) with
        | some prog =>
          .ok (pre ++
            [.useMaterialCmd, .useProgram prog, .drawVAOCmd vao,
             .useProgram 0, .clearMaterialCmd] ++ post, s1)
        | none => .error .keyError
      else
        .ok (pre ++ [.useMaterialCmd, .drawVAOCmd vao, .clearMaterialCmd] ++
          post, s1)
    | none =>
      let rgb := getDesiredRGB s.rgb s.contrast
      let color : Vec4 := ⟨rgb.x, rgb.y, rgb.z, s.opacity⟩
      if s.useShaders then
        match lookupShader (nLights, [false, false]) with
        | some prog =>
          .ok (pre ++
            [.useProgram prog, .materialfvDiffuse color,
             .materialfvAmbient color, .drawVAOCmd vao, .useProgram 0] ++
            post, s1)
        | none => .error .keyError
      else
        .ok (pre ++
          [.enableColorMaterial, .disableTexture2d,
           .colorMaterialAmbientAndDiffuse, .color4f color, .drawVAOCmd vao,
           .disableColorMaterial] ++ post, s1)

/-! ## Spec-side definitions for refinement comparisons -/

/-- The device-space color prescribed by the spec's invariant for
`PhongMaterial` (§3): "device-space colors are always
`(sourceColor*contrast+1)/2` with alpha=opacity". -/
def specDeviceColor (src : Vec3) (contrast opacity : ℚ) : Vec4 :=
  ⟨(src.x * contrast + 1) / 2, (src.y * contrast + 1) / 2,
   (src.z * contrast + 1) / 2, opacity⟩

end Stim3d

namespace Stim3d

/-! ## Theorems -/

/-- **C9.** After module initialization the shader variant table has exactly
`MAX_LIGHTS * 2` entries, its keys are exactly the pairs `(n, hasTexture)`
for `n` in `[1, MAX_LIGHTS]` and both boolean values — with no duplicates and
no extra keys — every such lookup succeeds, and the stored linked program
handles are pairwise distinct. -/
theorem shader_table_fully_populated :
    materialShaders.length = MAX_LIGHTS * 2 ∧
    materialShaders.map Prod.fst = shaderFlags ∧
    (((List.range' 1 MAX_LIGHTS).all fun n =>
      [true, false].all fun t => (lookupShader (n, [t])).isSome) = true) ∧
    (materialShaders.map Prod.fst).Nodup ∧
    (materialShaders.map Prod.snd).Nodup := by
  decide

/-- **C1.** The flat-color draw path (shading enabled, no material) builds the
three-element key `(nLights, False, False)`, which is never among the
two-element keys the table was populated with: the lookup fails for every
light count, and drawing such a stimulus raises `KeyError` instead of
succeeding.  Evaluated at the failing input: a bound stimulus with
`_useShaders = True`, `material = None`, and one active light. -/
theorem flat_color_shader_lookup_fails :
    (((List.range (MAX_LIGHTS + 2)).all fun n =>
      (lookupShader (n, [false, false])).isNone) = true) ∧
    BaseRigidBodyStim.draw
      { vao := some 0, thePose := mkRigidBodyPose vec3Zero quatIdentity
        material := none, useShaders := true, rgb := vec3Zero
        contrast := 1, opacity := 1 } 1 = .error .keyError := by
  exact ⟨by decide, rfl⟩

/-- **C8.** `RigidBodyPose.isEqual` never returns a boolean: `np.isclose`
yields element-wise boolean arrays and the Python `and` forces `bool()` of
the three-element position array, which raises
`ValueError` — evaluated here at the failing input of two identity poses. -/
theorem isEqual_raises_valueError :
    (mkRigidBodyPose vec3Zero quatIdentity).isEqual
      (mkRigidBodyPose vec3Zero quatIdentity) = .error .valueError := by
  rfl

/-- **C4.** Reading the `inverseModelMatrix` property always raises: the code
tests `not self._invModelMatrix` — Python truthiness of the cached array
(length 4 at construction, length 16 after an inverse recomputation) — which
raises `ValueError` for any multi-element array.  Evaluated at a fresh
default pose and at a pose whose inverse cache has been filled by
mutating `pos` and then calling `getModelMatrix(inverse=True)`. -/
theorem inverseModelMatrix_always_raises :
    (mkRigidBodyPose vec3Zero quatIdentity).inverseModelMatrixProp
      = .error .valueError ∧
    (((mkRigidBodyPose vec3Zero quatIdentity).setPos
      ⟨1, 2, 3⟩).getModelMatrix true).2.1.inverseModelMatrixProp
      = .error .valueError := by
  exact ⟨rfl, rfl⟩

/-- **C6 (counterexample part of the code-bug record).** The `ambientRGB`
setter computes `(value * + 1) / 2.0` — `value / 2` — instead of the
`(value + 1) / 2.0` of its sibling diffuse and specular setters: assigning
the normalized RGB `(1, 1, 1)` to the ambient color caches
`(1/2, 1/2, 1/2, 1)` rather than the `((v+1)/2, alpha)` the claim states,
while the same assignment to the diffuse and specular colors does produce
`(v+1)/2`; all three alphas are hardcoded `1.0` (a `LightSource` has no
opacity attribute). -/
theorem ambientRGB_cache_halves_value :
    (((mkLightSource vec3Zero ⟨1, 1, 1⟩ ⟨1, 1, 1⟩ ⟨0, 0, 0⟩ "point"
        ⟨1, 0, 0⟩).setAmbientColor ⟨1, 1, 1⟩).ambientRGB
      = ⟨1/2, 1/2, 1/2, 1⟩) ∧
    (((mkLightSource vec3Zero ⟨1, 1, 1⟩ ⟨1, 1, 1⟩ ⟨0, 0, 0⟩ "point"
        ⟨1, 0, 0⟩).setAmbientColor ⟨1, 1, 1⟩).ambientRGB
      ≠ ⟨(1 + 1)/2, (1 + 1)/2, (1 + 1)/2, 1⟩) ∧
    (((mkLightSource vec3Zero ⟨1, 1, 1⟩ ⟨1, 1, 1⟩ ⟨0, 0, 0⟩ "point"
        ⟨1, 0, 0⟩).setDiffuseColor ⟨1, 1, 1⟩).diffuseRGB
      = ⟨(1 + 1)/2, (1 + 1)/2, (1 + 1)/2, 1⟩) ∧
    (((mkLightSource vec3Zero ⟨1, 1, 1⟩ ⟨1, 1, 1⟩ ⟨0, 0, 0⟩ "point"
        ⟨1, 0, 0⟩).setSpecularColor ⟨1, 1, 1⟩).specularRGB
      = ⟨(1 + 1)/2, (1 + 1)/2, (1 + 1)/2, 1⟩) := by
  refine ⟨?_, ?_, ?_, ?_⟩ <;>
    simp [mkLightSource, LightSource.setAmbientColor,
      LightSource.setAmbientRGB, LightSource.setDiffuseColor,
      LightSource.setDiffuseRGB, LightSource.setSpecularColor,
      LightSource.setSpecularRGB, LightSource.setPos, Vec4.mk.injEq]

theorem mkRigidBodyPose_pos (p : Vec3) (q : Quat) :
    (mkRigidBodyPose p q).pos = p := rfl

theorem mkRigidBodyPose_ori (p : Vec3) (q : Quat) :
    (mkRigidBodyPose p q).ori = q := rfl

theorem multQuat_invertQuat_left (q : Quat) (h : quatNormSq q = 1) :
    multQuat (invertQuat q) q = quatIdentity := by
  have h4 : q.x * q.x + q.y * q.y + q.z * q.z + q.w * q.w = 1 := h
  unfold multQuat invertQuat quatIdentity
  rw [h, Quat.mk.injEq]
  refine ⟨by ring, by ring, by ring, by linear_combination h4⟩

theorem multQuat_invertQuat_right (q : Quat) (h : quatNormSq q = 1) :
    multQuat q (invertQuat q) = quatIdentity := by
  have h4 : q.x * q.x + q.y * q.y + q.z * q.z + q.w * q.w = 1 := h
  unfold multQuat invertQuat quatIdentity
  rw [h, Quat.mk.injEq]
  refine ⟨by ring, by ring, by ring, by linear_combination h4⟩

/-- **C2.** For every position `p` and unit orientation quaternion `q`,
composing `RigidBodyPose(p, q)` with its `~`-inverse via `*` — in either
order — yields exactly the identity pose (`pos = (0,0,0)`,
`ori = (0,0,0,1)`); in this exact rational model the result is the identity
on the nose, hence in particular within any floating tolerance of it. -/
theorem pose_inverse_composition (p : Vec3) (q : Quat)
    (h : quatNormSq q = 1) :
    (mkRigidBodyPose p q).invert.mul (mkRigidBodyPose p q)
      = mkRigidBodyPose vec3Zero quatIdentity ∧
    (mkRigidBodyPose p q).mul (mkRigidBodyPose p q).invert
      = mkRigidBodyPose vec3Zero quatIdentity := by
  have hp1 : (Vec3.neg p).add p = vec3Zero := by
    simp [Vec3.neg, Vec3.add, vec3Zero]
  have hp2 : p.add (Vec3.neg p) = vec3Zero := by
    simp [Vec3.neg, Vec3.add, vec3Zero]
  constructor
  · unfold RigidBodyPose.mul RigidBodyPose.invert
    rw [mkRigidBodyPose_pos, mkRigidBodyPose_ori, mkRigidBodyPose_pos,
      mkRigidBodyPose_ori, hp1, multQuat_invertQuat_left q h]
  · unfold RigidBodyPose.mul RigidBodyPose.invert
    rw [mkRigidBodyPose_pos, mkRigidBodyPose_ori, mkRigidBodyPose_pos,
      mkRigidBodyPose_ori, hp2, multQuat_invertQuat_right q h]

/-- Witness for `pose_inverse_composition` at `p = (1, 2, 3)` and the unit
quaternion `q = (3/5, 0, 0, 4/5)`. -/
theorem pose_inverse_composition_witness :
    quatNormSq ⟨3/5, 0, 0, 4/5⟩ = 1 ∧
    ((mkRigidBodyPose ⟨1, 2, 3⟩ ⟨3/5, 0, 0, 4/5⟩).invert.mul
        (mkRigidBodyPose ⟨1, 2, 3⟩ ⟨3/5, 0, 0, 4/5⟩)
      = mkRigidBodyPose vec3Zero quatIdentity ∧
    (mkRigidBodyPose ⟨1, 2, 3⟩ ⟨3/5, 0, 0, 4/5⟩).mul
        (mkRigidBodyPose ⟨1, 2, 3⟩ ⟨3/5, 0, 0, 4/5⟩).invert
      = mkRigidBodyPose vec3Zero quatIdentity) :=
  ⟨by norm_num [quatNormSq],
    pose_inverse_composition ⟨1, 2, 3⟩ ⟨3/5, 0, 0, 4/5⟩
      (by norm_num [quatNormSq])⟩

/-- **C3.** For every pose state, two consecutive `getModelMatrix()` calls
with no `pos`/`ori` reassignment in between return identical matrices, the
first call recomputes at most once, and the second call recomputes nothing (a
cache hit); reassigning `pos` or `ori` sets both dirty flags, so the next
`getModelMatrix()` performs exactly one recomputation. -/
theorem getModelMatrix_cache_hit (s : RigidBodyPose) (v : Vec3) (q : Quat) :
    (s.getModelMatrix false).1
      = ((s.getModelMatrix false).2.1.getModelMatrix false).1 ∧
    (s.getModelMatrix false).2.2 ≤ 1 ∧
    ((s.getModelMatrix false).2.1.getModelMatrix false).2.2 = 0 ∧
    (s.setPos v).matrixNeedsUpdate = true ∧
    (s.setPos v).invMatrixNeedsUpdate = true ∧
    (s.setOri q).matrixNeedsUpdate = true ∧
    (s.setOri q).invMatrixNeedsUpdate = true ∧
    ((s.setPos v).getModelMatrix false).2.2 = 1 ∧
    ((s.setOri q).getModelMatrix false).2.2 = 1 := by
  by_cases hm : s.matrixNeedsUpdate <;>
    simp [RigidBodyPose.getModelMatrix, RigidBodyPose.setPos,
      RigidBodyPose.setOri, hm]

/-- **C5 (counterexample).** The claimed invariant — each device-space cache
always equals `(sourceColor*contrast+1)/2` with alpha `opacity` — breaks as
soon as `contrast` is reassigned: `contrast` is a plain attribute, so the
assignment refreshes no cache, and the cached diffuse color goes stale. -/
theorem contrast_change_leaves_stale_cache :
    ((mkPhongMaterialCore ⟨1, 1, 1⟩ ⟨-1, -1, -1⟩ ⟨-1, -1, -1⟩ ⟨-1, -1, -1⟩
        10 1 1 .front none false).setContrast 0).diffuseRGB
      ≠ specDeviceColor
        ((mkPhongMaterialCore ⟨1, 1, 1⟩ ⟨-1, -1, -1⟩ ⟨-1, -1, -1⟩
          ⟨-1, -1, -1⟩ 10 1 1 .front none false).setContrast 0).diffuseColor
        ((mkPhongMaterialCore ⟨1, 1, 1⟩ ⟨-1, -1, -1⟩ ⟨-1, -1, -1⟩
          ⟨-1, -1, -1⟩ 10 1 1 .front none false).setContrast 0).contrast
        ((mkPhongMaterialCore ⟨1, 1, 1⟩ ⟨-1, -1, -1⟩ ⟨-1, -1, -1⟩
          ⟨-1, -1, -1⟩ 10 1 1 .front none false).setContrast 0).opacity := by
  simp [mkPhongMaterialCore, PhongMaterial.setContrast,
    PhongMaterial.setDiffuseColor, PhongMaterial.setDiffuseRGB,
    PhongMaterial.setSpecularColor, PhongMaterial.setSpecularRGB,
    PhongMaterial.setAmbientColor, PhongMaterial.setAmbientRGB,
    PhongMaterial.setEmissionColor, PhongMaterial.setEmissionRGB,
    specDeviceColor, Vec4.mk.injEq]

/-- **C5 (amended).** Each device-space cache equals
`(sourceColor*contrast+1)/2` with alpha `opacity` as of the moment its source
color was last assigned: reassigning any of the four source colors recomputes
that cache from the contrast and opacity current at assignment time, while
reassigning `opacity` or `contrast` alone leaves all four caches unchanged. -/
theorem device_color_recomputed_on_color_assignment
    (m : PhongMaterial) (v : Vec3) (c o : ℚ) :
    (m.setDiffuseColor v).diffuseRGB
      = specDeviceColor v m.contrast m.opacity ∧
    (m.setSpecularColor v).specularRGB
      = specDeviceColor v m.contrast m.opacity ∧
    (m.setAmbientColor v).ambientRGB
      = specDeviceColor v m.contrast m.opacity ∧
    (m.setEmissionColor v).emissionRGB
      = specDeviceColor v m.contrast m.opacity ∧
    (m.setContrast c).diffuseRGB = m.diffuseRGB ∧
    (m.setContrast c).specularRGB = m.specularRGB ∧
    (m.setContrast c).ambientRGB = m.ambientRGB ∧
    (m.setContrast c).emissionRGB = m.emissionRGB ∧
    (m.setOpacity o).diffuseRGB = m.diffuseRGB ∧
    (m.setOpacity o).specularRGB = m.specularRGB ∧
    (m.setOpacity o).ambientRGB = m.ambientRGB ∧
    (m.setOpacity o).emissionRGB = m.emissionRGB := by
  simp [PhongMaterial.setDiffuseColor, PhongMaterial.setDiffuseRGB,
    PhongMaterial.setSpecularColor, PhongMaterial.setSpecularRGB,
    PhongMaterial.setAmbientColor, PhongMaterial.setAmbientRGB,
    PhongMaterial.setEmissionColor, PhongMaterial.setEmissionRGB,
    PhongMaterial.setContrast, PhongMaterial.setOpacity, specDeviceColor]

/-- **C7 (counterexample).** Construction does not validate `lightType`: the
constructor stores the string directly (bypassing the property setter) and
the `pos` setter only checks for `'point'`, so a `LightSource` built with the
invalid `lightType='spot'` is accepted silently with `w = 0` instead of being
rejected with a `ValueError`. -/
theorem lightType_unvalidated_at_construction :
    (mkLightSource vec3Zero ⟨1, 1, 1⟩ ⟨1, 1, 1⟩ ⟨0, 0, 0⟩ "spot"
      ⟨1, 0, 0⟩).lightType = "spot" ∧
    (mkLightSource vec3Zero ⟨1, 1, 1⟩ ⟨1, 1, 1⟩ ⟨0, 0, 0⟩ "spot"
      ⟨1, 0, 0⟩).posW = 0 := by
  exact ⟨rfl, rfl⟩

/-- **C7 (amended).** Assigning the `lightType` attribute validates: `'point'`
forces `w = 1`, `'directional'` forces `w = 0`, and any other value raises
`ValueError`.  At construction the string is stored without validation:
`'point'` forces `w = 1` and every other string — valid or not — leaves
`w = 0` with no rejection. -/
theorem lightType_assignment_validates (L : LightSource) (s : String)
    (hp : s ≠ "point") (hd : s ≠ "directional")
    (pos dif spc amb katt : Vec3) (t : String) (ht : t ≠ "point") :
    L.setLightType "point" = .ok { L with lightType := "point", posW := 1 } ∧
    L.setLightType "directional"
      = .ok { L with lightType := "directional", posW := 0 } ∧
    L.setLightType s = .error .valueError ∧
    (mkLightSource pos dif spc amb "point" katt).posW = 1 ∧
    (mkLightSource pos dif spc amb t katt).posW = 0 := by
  refine ⟨rfl, rfl, ?_, rfl, ?_⟩
  · simp [LightSource.setLightType, hp, hd]
  · simp [mkLightSource, LightSource.setPos, LightSource.setDiffuseColor,
      LightSource.setDiffuseRGB, LightSource.setSpecularColor,
      LightSource.setSpecularRGB, LightSource.setAmbientColor,
      LightSource.setAmbientRGB, ht]

/-- Witness for `lightType_assignment_validates` at `s = "spot"`,
`t = "directional"`, and a concrete light source. -/
theorem lightType_assignment_validates_witness :
    (("spot" : String) ≠ "point" ∧ ("spot" : String) ≠ "directional" ∧
      ("directional" : String) ≠ "point") ∧
    ((mkLightSource vec3Zero ⟨1, 1, 1⟩ ⟨1, 1, 1⟩ ⟨0, 0, 0⟩ "point"
        ⟨1, 0, 0⟩).setLightType "point"
      = .ok { mkLightSource vec3Zero ⟨1, 1, 1⟩ ⟨1, 1, 1⟩ ⟨0, 0, 0⟩ "point"
          ⟨1, 0, 0⟩ with lightType := "point", posW := 1 } ∧
    (mkLightSource vec3Zero ⟨1, 1, 1⟩ ⟨1, 1, 1⟩ ⟨0, 0, 0⟩ "point"
        ⟨1, 0, 0⟩).setLightType "directional"
      = .ok { mkLightSource vec3Zero ⟨1, 1, 1⟩ ⟨1, 1, 1⟩ ⟨0, 0, 0⟩ "point"
          ⟨1, 0, 0⟩ with lightType := "directional", posW := 0 } ∧
    (mkLightSource vec3Zero ⟨1, 1, 1⟩ ⟨1, 1, 1⟩ ⟨0, 0, 0⟩ "point"
        ⟨1, 0, 0⟩).setLightType "spot" = .error .valueError ∧
    (mkLightSource vec3Zero ⟨1, 1, 1⟩ ⟨1, 1, 1⟩ ⟨0, 0, 0⟩ "point"
        ⟨1, 0, 0⟩).posW = 1 ∧
    (mkLightSource vec3Zero ⟨1, 1, 1⟩ ⟨1, 1, 1⟩ ⟨0, 0, 0⟩ "directional"
        ⟨1, 0, 0⟩).posW = 0) :=
  ⟨⟨by decide, by decide, by decide⟩,
    lightType_assignment_validates
      (mkLightSource vec3Zero ⟨1, 1, 1⟩ ⟨1, 1, 1⟩ ⟨0, 0, 0⟩ "point"
        ⟨1, 0, 0⟩) "spot" (by decide) (by decide)
      vec3Zero ⟨1, 1, 1⟩ ⟨1, 1, 1⟩ ⟨0, 0, 0⟩ ⟨1, 0, 0⟩ "directional"
      (by decide)⟩

/-- **C10.** Drawing a stimulus in the `Unbound` state (no vertex array
buffer attached, `self._vao is None`) returns without raising, emits no GL
command, and leaves the stimulus state unchanged. -/
theorem draw_unbound_is_silent_noop (s : BaseRigidBodyStim) (nLights : Nat)
    (h : s.vao = none) :
    s.draw nLights = .ok ([], s) := by
  unfold BaseRigidBodyStim.draw
  rw [h]

/-- Witness for `draw_unbound_is_silent_noop` at a concrete unbound
stimulus. -/
theorem draw_unbound_is_silent_noop_witness :
    ({ vao := none, thePose := mkRigidBodyPose vec3Zero quatIdentity
       material := none, useShaders := false, rgb := vec3Zero
       contrast := 1, opacity := 1 } : BaseRigidBodyStim).vao = none ∧
    BaseRigidBodyStim.draw
      { vao := none, thePose := mkRigidBodyPose vec3Zero quatIdentity
        material := none, useShaders := false, rgb := vec3Zero
        contrast := 1, opacity := 1 } 3
      = .ok ([],
        { vao := none, thePose := mkRigidBodyPose vec3Zero quatIdentity
          material := none, useShaders := false, rgb := vec3Zero
          contrast := 1, opacity := 1 }) :=
  ⟨rfl,
    draw_unbound_is_silent_noop
      { vao := none, thePose := mkRigidBodyPose vec3Zero quatIdentity
        material := none, useShaders := false, rgb := vec3Zero
        contrast := 1, opacity := 1 } 3 rfl⟩

end Stim3d
